import Mathlib

/-!
# Chem-E-Care — verification of the spec against `src/app.py`

Shallow embedding of the core of `app.py` (a Streamlit dashboard):

* Python strings are modelled as `List Char` (wrapped in `String` at the
  boundaries); the Python `str` operations used by the code
  (`splitlines`, `split('|')`, `replace(old, '')`, `strip()`, `in`) are
  reimplemented faithfully below.
* Python dicts are modelled as structures.  Where object identity
  matters (the orchestrator mutates an event dict in place and the same
  dict object is referenced from the decision log and the alert list),
  we use an explicit arena `heap : List Event`; a "reference" to an
  event dict is an index into the arena, exactly mirroring Python's
  reference semantics for mutable dicts.
* Values the code obtains from the environment (`time.time()`,
  `datetime.now()`, `random.random()`, file contents, the LLM response
  text) are passed in as explicit parameters.
* `datetime` timestamps are modelled as a record of numeric fields;
  `datetime.isoformat` / `datetime.fromisoformat` (used by
  `save_events` / `load_events`) are modelled on the strings `isoformat`
  actually produces: `YYYY-MM-DDTHH:MM:SS` with a `.ffffff` suffix
  exactly when `microsecond ≠ 0`.
* Exceptions are modelled with `Option`/`Except`; `try/except` blocks
  become pattern matches on the result.
-/

namespace ChemECare

/-! ## Python string primitives -/

/-- Whitespace characters stripped by Python's `str.strip()`. -/
def isSpaceChar (c : Char) : Bool :=
  c = ' ' || c = '\t' || c = '\n' || c = '\r' || c = '\x0b' || c = '\x0c'

/-- Python `str.strip()`: drop whitespace from both ends. -/
def stripWs (cs : List Char) : List Char :=
  ((cs.dropWhile isSpaceChar).reverse.dropWhile isSpaceChar).reverse

/-- Python `str.split(c)` for a single-character separator: keeps empty
segments, always returns `count c + 1` segments. -/
def splitOnChar (c : Char) : List Char → List (List Char)
  | [] => [[]]
  | x :: xs =>
    if x = c then [] :: splitOnChar c xs
    else
      match splitOnChar c xs with
      | [] => [[x]]
      | y :: ys => (x :: y) :: ys

/-- Python `str.splitlines()` with `\n` line boundaries: like
`split('\n')` except that a trailing newline does not produce a final
empty line (`"".splitlines() = []`, `"a\n".splitlines() = ["a"]`). -/
def splitlines (cs : List Char) : List (List Char) :=
  let p := splitOnChar '\n' cs
  if p.getLast? = some [] then p.dropLast else p

/-- Python `sub in s`: `pat` occurs as a contiguous substring. -/
def hasSub (pat : List Char) : List Char → Bool
  | [] => pat.isEmpty
  | x :: xs => pat.isPrefixOf (x :: xs) || hasSub pat xs

/-- Worker for `replaceAll`.  The fuel argument (initially the length of
the string, which bounds the number of loop steps) only makes the
left-to-right scan of Python's `str.replace` structurally recursive; it
is never exhausted when `fuel ≥ cs.length`. -/
def replaceAllGo (pat : List Char) : Nat → List Char → List Char
  | _, [] => []
  | 0, cs => cs
  | fuel + 1, x :: xs =>
    if pat.isPrefixOf (x :: xs) ∧ pat ≠ [] then
      replaceAllGo pat fuel (List.drop (pat.length - 1) xs)
    else
      x :: replaceAllGo pat fuel xs

/-- Python `s.replace(pat, '')` for nonempty `pat`: delete all
non-overlapping occurrences, scanning left to right. -/
def replaceAll (pat cs : List Char) : List Char :=
  replaceAllGo pat cs.length cs

/-! ## Decimal digits, `datetime.isoformat` / `fromisoformat` -/

/-- Read a list of decimal digit characters as a number (most
significant digit first). -/
def parseNat (cs : List Char) : Nat :=
  cs.foldl (fun acc c => acc * 10 + (c.toNat - 48)) 0

/-- Zero-padded `w`-digit decimal rendering of `n` (the `%04d`/`%02d`/
`%06d` fields of `datetime.isoformat`). -/
def padNat : Nat → Nat → List Char
  | 0, _ => []
  | w + 1, n => padNat w (n / 10) ++ [Nat.digitChar (n % 10)]

/-- Consume exactly `w` decimal digits from the front of `cs`;
`none` when fewer than `w` characters remain or a non-digit occurs. -/
def takeNum (w : Nat) (cs : List Char) : Option (Nat × List Char) :=
  let pre := cs.take w
  if pre.length = w ∧ pre.all Char.isDigit = true then
    some (parseNat pre, cs.drop w)
  else none

/-- Consume one expected literal character (a `-`/`:`/`T`/`.` separator
of the ISO-8601 format). -/
def expectCh (c : Char) : List Char → Option (List Char)
  | [] => none
  | x :: xs => if x = c then some xs else none

/-- The timestamp record carried in an event dict's `time` field
(`datetime.now()` values; naive, no timezone). -/
structure DateTime where
  year : Nat
  month : Nat
  day : Nat
  hour : Nat
  minute : Nat
  second : Nat
  microsecond : Nat
deriving DecidableEq

/-- The fractional-seconds suffix of `datetime.isoformat`: present
exactly when `microsecond ≠ 0`, then always six digits. -/
def microPart (us : Nat) : List Char :=
  if us = 0 then [] else '.' :: padNat 6 us

/-- The character sequence produced by `datetime.isoformat()`:
`YYYY-MM-DDTHH:MM:SS[.ffffff]`. -/
def isoChars (d : DateTime) : List Char :=
  padNat 4 d.year ++
    ('-' :: (padNat 2 d.month ++
      ('-' :: (padNat 2 d.day ++
        ('T' :: (padNat 2 d.hour ++
          (':' :: (padNat 2 d.minute ++
            (':' :: (padNat 2 d.second ++ microPart d.microsecond))))))))))

/-- `datetime.isoformat()` as a `String` (the value stored in the JSON
`time` field by `save_events`). -/
def isoformat (d : DateTime) : String :=
  ⟨isoChars d⟩

/-- Parser for the strings `isoformat` produces; `none` models the
`ValueError` raised by `datetime.fromisoformat` on malformed input. -/
def parseDT (cs : List Char) : Option DateTime :=
  (takeNum 4 cs).bind fun p1 =>
  (expectCh '-' p1.2).bind fun cs2 =>
  (takeNum 2 cs2).bind fun p2 =>
  (expectCh '-' p2.2).bind fun cs3 =>
  (takeNum 2 cs3).bind fun p3 =>
  (expectCh 'T' p3.2).bind fun cs4 =>
  (takeNum 2 cs4).bind fun p4 =>
  (expectCh ':' p4.2).bind fun cs5 =>
  (takeNum 2 cs5).bind fun p5 =>
  (expectCh ':' p5.2).bind fun cs6 =>
  (takeNum 2 cs6).bind fun p6 =>
  match p6.2 with
  | [] => some ⟨p1.1, p2.1, p3.1, p4.1, p5.1, p6.1, 0⟩
  | _ :: _ =>
    (expectCh '.' p6.2).bind fun cs7 =>
    (takeNum 6 cs7).bind fun p7 =>
    if p7.2.isEmpty then some ⟨p1.1, p2.1, p3.1, p4.1, p5.1, p6.1, p7.1⟩
    else none

/-- `datetime.fromisoformat` applied to a serialized `time` field. -/
def fromisoformat (s : String) : Option DateTime :=
  parseDT s.data

/-- Field bounds that every real Python `datetime` satisfies (Python
enforces the tighter `1 ≤ month ≤ 12` etc.); these are exactly the
bounds needed for each field to fit its zero-padded width. -/
def validDT (d : DateTime) : Prop :=
  d.year < 10000 ∧ d.month < 100 ∧ d.day < 100 ∧ d.hour < 100 ∧
    d.minute < 100 ∧ d.second < 100 ∧ d.microsecond < 1000000

instance (d : DateTime) : Decidable (validDT d) := by
  unfold validDT; infer_instance

/-! ## Data model: events, todos, alerts, decision-log entries -/

/-- An event dict as built by the Entry Points form:
`{'id': time.time(), 'type': ..., 'details': ..., 'time': datetime.now(),
'status': 'Pending'}`.  The numeric id (a `time.time()` float in Python)
is modelled as a `Nat` clock reading. -/
structure Event where
  id : Nat
  type : String
  details : String
  time : DateTime
  status : String
deriving DecidableEq

/-- An event dict as it sits in the JSON events file: same fields, with
the `time` field serialized to its ISO-8601 string. -/
structure RawEvent where
  id : Nat
  type : String
  details : String
  time : String
  status : String
deriving DecidableEq

/-- A todo dict `{'event': ..., 'risk': ..., 'action': ..., 'done': ...}`
as parsed from the LLM response (and as stored in the todos file). -/
structure Todo where
  event : String
  risk : String
  action : String
  done : Bool
deriving DecidableEq

/-- An alert dict as built by `add_alert_dynamic`.  `styleClass` is the
`'class'` key (`class` is reserved in Lean); `event` is a reference
(arena index) to the triggering event dict; `id` stands for the
`time.time() + random.random()` fresh token, passed in explicitly. -/
structure Alert where
  id : Nat
  type : String
  styleClass : String
  auto : String
  event : Nat
  created : DateTime
  urgency : Nat
  dismissed : Bool
deriving DecidableEq

/-- A decision-log entry as built by `process_orchestrator_decision`.
`event` holds the same dict object the store holds, i.e. a reference
(arena index), exactly as `'event': event` does in Python. -/
structure OrchestratorEntry where
  event : Nat
  answers : Bool × Bool × Bool
  outcome : String
  color : String
  timestamp : DateTime
deriving DecidableEq

/-! ## Persistence (`load_events` / `save_events` / `load_todos`) -/

/-- Serialization of one event performed inside `save_events`
(`e.copy()` with the `time` field converted to `isoformat`). -/
def serializeEvent (e : Event) : RawEvent :=
  { id := e.id, type := e.type, details := e.details,
    time := isoformat e.time, status := e.status }

/-- `save_events`: the JSON-serializable list written to `events.json`. -/
def save_events (events : List Event) : List RawEvent :=
  events.map serializeEvent

/-- The conversion `load_events` applies to each loaded dict:
`e['time'] = datetime.fromisoformat(e['time'])`; `none` models the
`ValueError` the conversion can raise. -/
def convertRaw (e : RawEvent) : Option Event :=
  (fromisoformat e.time).map fun t =>
    { id := e.id, type := e.type, details := e.details,
      time := t, status := e.status }

/-- The `for e in events` conversion loop of `load_events`: the first
`ValueError` aborts the whole load (the exception propagates to the
surrounding `except`). -/
def convertEvents : List RawEvent → Option (List Event)
  | [] => some []
  | r :: rs =>
    match convertRaw r with
    | none => none
    | some e =>
      match convertEvents rs with
      | none => none
      | some es => some (e :: es)

/-- The observable states of a backing JSON file, as far as
`open` + `json.load` are concerned: absent (`FileNotFoundError`), empty
or truncated (`json.JSONDecodeError`), or parsing to a value. -/
inductive FileState (α : Type) where
  | missing
  | empty
  | truncated
  | valid (content : α)
deriving DecidableEq

/-- `open(f) ; json.load(f)`: every failing file state raises, a valid
file yields its parsed content. -/
def readJson {α : Type} : FileState α → Except String α
  | .missing => .error "FileNotFoundError"
  | .empty => .error "JSONDecodeError"
  | .truncated => .error "JSONDecodeError"
  | .valid a => .ok a

/-- `load_events` (app.py lines 17–27): read and parse `events.json`,
convert each `time` field back to a datetime; any exception anywhere in
the `try` block yields `[]`. -/
def load_events (fs : FileState (List RawEvent)) : List Event :=
  match readJson fs with
  | .error _ => []
  | .ok raws =>
    match convertEvents raws with
    | none => []
    | some evs => evs

/-- `load_todos` (app.py lines 45–50): read and parse `todos.json`; any
exception yields `[]`. -/
def load_todos (fs : FileState (List Todo)) : List Todo :=
  match readJson fs with
  | .error _ => []
  | .ok ts => ts

/-! ## Orchestrator (`process_orchestrator_decision`, `add_alert_dynamic`) -/

/-- The classification block of `process_orchestrator_decision`
(app.py lines 325–336), as a pure function of the answer triple
`(answers[0], answers[1], answers[2]) =
(safetyImpact, complianceDeviation, assetHealthRisk)`.
Returns `(outcome, color, alert_type)`. -/
def classify (answers : Bool × Bool × Bool) : String × String × String :=
  if answers.1 then
    ("Escalate", "#ff4d4f", "Critical Safety")
  else if answers.2.1 || answers.2.2 then
    ("Schedule Task", "#faad14",
      if answers.2.2 then "Asset Failure Risk" else "Compliance Drift")
  else
    ("Auto-Resolve", "#52c41a", "Rounding")

/-- The `risk_to_alert` table (app.py lines 226–232): risk label →
(style class, urgency in seconds). -/
def risk_to_alert : List (String × String × Nat) :=
  [("High", "alert-critical", 60),
   ("Medium", "alert-asset", 900),
   ("Low", "alert-rounding", 14400),
   ("Training", "alert-training", 86400),
   ("Compliance", "alert-compliance", 3600)]

/-- The in-memory session collections touched by the orchestrator.
`heap` is the arena of event dict objects; `st.session_state.events`
holds references into it (the reference list itself is not needed for
the orchestrator claims). -/
structure OrchState where
  heap : List Event
  orchestrator_log : List OrchestratorEntry
  alerts : List Alert
deriving DecidableEq

/-- `add_alert_dynamic(event, risk_level, auto_action)` (app.py lines
306–319): look `risk_level` up in `risk_to_alert` with the
`risk_to_alert['Low']` entry `("alert-rounding", 14400)` as fallback,
build the alert dict and insert it at index 0 of the alert list.
`alertId` stands for the fresh `time.time() + random.random()` token,
`now` for `datetime.now()`. -/
def add_alert_dynamic (s : OrchState) (event : Nat) (risk_level : String)
    (auto_action : Option String) (alertId : Nat) (now : DateTime) : OrchState :=
  let alert_def := (List.lookup risk_level risk_to_alert).getD ("alert-rounding", 14400)
  let alert : Alert :=
    { id := alertId, type := risk_level, styleClass := alert_def.1,
      auto := auto_action.getD "", event := event, created := now,
      urgency := alert_def.2, dismissed := false }
  { s with alerts := alert :: s.alerts }

/-- `event['status'] = outcome`: in-place mutation of the event dict the
reference `r` points at. -/
def setEventStatus : List Event → Nat → String → List Event
  | [], _, _ => []
  | e :: es, 0, o => { e with status := o } :: es
  | e :: es, n + 1, o => e :: setEventStatus es n o

/-- `process_orchestrator_decision(event, answers)` (app.py lines
321–350): classify, insert the decision entry at index 0 of the log
(the entry's `'event'` key holds the same dict object, i.e. the
reference `event`), mutate the event dict's `status` in place, emit one
alert via `add_alert_dynamic(event, alert_type)`, return
`(outcome, color)` (bundled here with the updated state). -/
def process_orchestrator_decision (s : OrchState) (event : Nat)
    (answers : Bool × Bool × Bool) (now : DateTime) (alertId : Nat) :
    OrchState × String × String :=
  let oca := classify answers
  let outcome := oca.1
  let color := oca.2.1
  let alert_type := oca.2.2
  let orchestrator_entry : OrchestratorEntry :=
    { event := event, answers := answers, outcome := outcome,
      color := color, timestamp := now }
  let s1 : OrchState := { s with orchestrator_log := orchestrator_entry :: s.orchestrator_log }
  let s2 : OrchState := { s1 with heap := setEventStatus s1.heap event outcome }
  let s3 := add_alert_dynamic s2 event alert_type none alertId now
  (s3, outcome, color)

/-- `format_urgency(alert)` (app.py lines 247–254): render seconds as
minutes below 3600, hours below 86400, otherwise days, all with integer
floor division. -/
def format_urgency (alert : Alert) : String :=
  if alert.urgency < 3600 then toString (alert.urgency / 60) ++ "m"
  else if alert.urgency < 86400 then toString (alert.urgency / 3600) ++ "h"
  else toString (alert.urgency / 86400) ++ "d"

/-! ## Entry Points form (`event_form` submission) -/

/-- The event store as the form sees it: the in-memory list plus the
durable `events.json` contents. -/
structure EventStoreState where
  events : List Event
  eventsFile : List RawEvent
deriving DecidableEq

/-- The `event_form` submission handler (app.py lines 401–412), for a
submitted form: when `event_details` is non-empty (Python truthiness),
build `{'id': time.time(), 'type': ..., 'details': ..., 'time':
datetime.now(), 'status': 'Pending'}`, insert it at index 0 and persist
the whole collection with `save_events`.  `clock` is the `time.time()`
reading, `now` the `datetime.now()` reading. -/
def event_form_submit (s : EventStoreState) (event_type event_details : String)
    (now : DateTime) (clock : Nat) : EventStoreState :=
  if event_details ≠ "" then
    let event : Event :=
      { id := clock, type := event_type, details := event_details,
        time := now, status := "Pending" }
    let events' := event :: s.events
    { events := events', eventsFile := save_events events' }
  else s

/-! ## LLM todo parsing (Dashboard page, app.py lines 517–537) -/

/-- A line qualifies iff it contains both literal substrings
`'| Risk:'` and `'| Action:'` (the loop's `if` condition). -/
def qualifiesLine (line : List Char) : Bool :=
  hasSub "| Risk:".toList line && hasSub "| Action:".toList line

/-- The body of the parsing loop for one qualifying line:
`parts = line.split('|')`, then strip the `Event:`/`Risk:`/`Action:`
labels (Python `replace(label, '')`, which deletes every occurrence)
and trim whitespace.  `parts.getD i []` is Python's `parts[i]`; for a
qualifying line `parts` provably has at least three segments, so the
default is never taken (no `IndexError`). -/
def mkTodo (line : List Char) : Todo :=
  let parts := splitOnChar '|' line
  let event_part := stripWs (replaceAll "Event:".toList (parts.getD 0 []))
  let risk_part := stripWs (replaceAll "Risk:".toList (parts.getD 1 []))
  let action_part := stripWs (replaceAll "Action:".toList (parts.getD 2 []))
  { event := ⟨event_part⟩, risk := ⟨risk_part⟩, action := ⟨action_part⟩,
    done := false }

/-- The `new_todos` parsing loop (app.py lines 517–529): scan the
response line by line, appending one todo per qualifying line. -/
def parseTodos (resp : String) : List Todo :=
  (splitlines resp.toList).foldl
    (fun acc line => if qualifiesLine line then acc ++ [mkTodo line] else acc) []

/-- The todo collection as the Dashboard page sees it: the in-memory
list plus the durable `todos.json` contents. -/
structure TodoState where
  todos : List Todo
  todosFile : List Todo
deriving DecidableEq

/-- The replacement step after parsing (app.py lines 534–537):
`if new_todos: st.session_state.todos = new_todos; save_todos(new_todos)`
— wholesale replacement and persistence when at least one line
qualified, otherwise no change at all. -/
def dashboardTodoUpdate (s : TodoState) (resp : String) : TodoState :=
  let new_todos := parseTodos resp
  if new_todos ≠ [] then { todos := new_todos, todosFile := new_todos } else s

/-! ## Concrete sample values (used by witnesses and counterexamples) -/

/-- A sample timestamp with a fractional-second part. -/
def t0 : DateTime := ⟨2025, 7, 1, 12, 30, 5, 123456⟩

/-- A sample timestamp with `microsecond = 0` (isoformat omits the
fraction). -/
def t1 : DateTime := ⟨2024, 12, 31, 0, 0, 0, 0⟩

/-- A sample event dict. -/
def sampleEvent : Event :=
  { id := 5, type := "Incident Flag", details := "Pump leak",
    time := t0, status := "Pending" }

/-- A second sample event dict. -/
def sampleEvent2 : Event :=
  { id := 9, type := "Scheduled Cycle", details := "Sensor drift",
    time := t1, status := "Escalate" }

/-- A session state holding the single event dict `sampleEvent`. -/
def sampleOrchState : OrchState :=
  { heap := [sampleEvent], orchestrator_log := [], alerts := [] }

/-- Default values for `List.getD`/`List.headD` reads (Python would
raise `IndexError` there; the theorems only read positions proved to
exist). -/
def defaultEvent : Event :=
  { id := 0, type := "", details := "", time := t1, status := "" }

/-- Default decision-log entry for `List.headD`. -/
def defaultEntry : OrchestratorEntry :=
  { event := 0, answers := (false, false, false), outcome := "",
    color := "", timestamp := t1 }

/-- Default alert for `List.headD`, also the base record for the
urgency-formatting examples. -/
def defaultAlert : Alert :=
  { id := 0, type := "", styleClass := "", auto := "", event := 0,
    created := t1, urgency := 0, dismissed := false }

/-- An alert with the given urgency (only the `urgency` field matters to
`format_urgency`). -/
def urgAlert (u : Nat) : Alert :=
  { defaultAlert with urgency := u }

/-- The three-line response text from the spec's todo-parsing example. -/
def specExample : String :=
  "Event: Pump leak | Risk: High | Action: Inspect valve\nnot a todo line\nEvent: Sensor drift | Risk: Low | Action: Recalibrate"

/-- A raw event whose `time` field is not an ISO-8601 string, so its
conversion in `load_events` raises `ValueError`. -/
def badRawEvent : RawEvent :=
  { id := 1, type := "Incident Flag", details := "x",
    time := "notadate", status := "Pending" }

/-- One concrete orchestrator run on `sampleOrchState`: answers
`[True, False, False]` (safety impact), `datetime.now() = t0`, alert id
token `7`. -/
def c3Run : OrchState :=
  (process_orchestrator_decision sampleOrchState 0 (true, false, false) t0 7).1

/-! ## Helper lemmas -/

/-- Reading back the mutated slot: `setEventStatus` replaces exactly the
status of the event dict at a valid reference. -/
theorem getD_setEventStatus (h : List Event) (r : Nat) (o : String) (d : Event)
    (hr : r < h.length) :
    (setEventStatus h r o)[r]?.getD d = { h[r]?.getD d with status := o } := by
  induction h generalizing r with
  | nil => simp at hr
  | cons e es ih =>
    cases r with
    | zero => simp [setEventStatus]
    | succ n =>
      simp only [setEventStatus, List.getElem?_cons_succ]
      exact ih n (by simpa using hr)

/-- `setEventStatus` never changes the arena's length. -/
theorem setEventStatus_length (h : List Event) (r : Nat) (o : String) :
    (setEventStatus h r o).length = h.length := by
  induction h generalizing r with
  | nil => rfl
  | cons e es ih =>
    cases r with
    | zero => simp [setEventStatus]
    | succ n => simp [setEventStatus, ih]

/-- `Nat.digitChar` of a decimal digit is the ASCII character 48 + d. -/
theorem digitChar_toNat (d : Nat) (h : d < 10) :
    (Nat.digitChar d).toNat = 48 + d := by
  interval_cases d <;> decide

/-- `Nat.digitChar` of a decimal digit satisfies `Char.isDigit`. -/
theorem digitChar_isDigit (d : Nat) (h : d < 10) :
    (Nat.digitChar d).isDigit = true := by
  interval_cases d <;> decide

/-- A zero-padded field has exactly its width. -/
theorem padNat_length (w n : Nat) : (padNat w n).length = w := by
  induction w generalizing n with
  | zero => rfl
  | succ w ih => simp [padNat, ih]

/-- A zero-padded field consists of decimal digits only. -/
theorem padNat_digits (w n : Nat) : (padNat w n).all Char.isDigit = true := by
  induction w generalizing n with
  | zero => rfl
  | succ w ih =>
    simp [padNat, ih, digitChar_isDigit (n % 10) (Nat.mod_lt _ (by norm_num))]

/-- Reading one more digit at the end of a numeral. -/
theorem parseNat_append_digit (l : List Char) (c : Char) :
    parseNat (l ++ [c]) = parseNat l * 10 + (c.toNat - 48) := by
  simp [parseNat, List.foldl_append]

/-- Parsing a `w`-digit zero-padded numeral recovers the value modulo
`10 ^ w`. -/
theorem parseNat_padNat (w n : Nat) : parseNat (padNat w n) = n % 10 ^ w := by
  induction w generalizing n with
  | zero => simp [padNat, parseNat, Nat.mod_one]
  | succ w ih =>
    have hd : n % 10 < 10 := Nat.mod_lt _ (by norm_num)
    rw [padNat, parseNat_append_digit, ih, digitChar_toNat _ hd,
      pow_succ', Nat.mod_mul]
    omega

/-- `takeNum` consumes exactly a zero-padded field that fits its width. -/
theorem takeNum_pad (w n : Nat) (rest : List Char) (h : n < 10 ^ w) :
    takeNum w (padNat w n ++ rest) = some (n, rest) := by
  have hl := padNat_length w n
  have ht := List.take_left (padNat w n) rest
  have hd := List.drop_left (padNat w n) rest
  rw [hl] at ht hd
  simp only [takeNum, ht, hd, hl, padNat_digits, and_true]
  rw [if_pos trivial, parseNat_padNat, Nat.mod_eq_of_lt h]

/-- `takeNum` at the very end of the input. -/
theorem takeNum_pad_nil (w n : Nat) (h : n < 10 ^ w) :
    takeNum w (padNat w n) = some (n, []) := by
  have := takeNum_pad w n [] h
  simpa using this

/-- Consuming an expected separator character. -/
theorem expectCh_cons_self (c : Char) (cs : List Char) :
    expectCh c (c :: cs) = some cs := by
  simp [expectCh]

/-- Round-trip of the timestamp serialization: parsing the string
`datetime.isoformat()` produces recovers the original datetime, for
every datetime whose fields fit their padded widths (every real Python
datetime does). -/
theorem parse_iso (d : DateTime) (h : validDT d) :
    parseDT (isoChars d) = some d := by
  obtain ⟨y, mo, dd, hh, mi, ss, us⟩ := d
  have g1 : y < 10000 := h.1
  have g2 : mo < 100 := h.2.1
  have g3 : dd < 100 := h.2.2.1
  have g4 : hh < 100 := h.2.2.2.1
  have g5 : mi < 100 := h.2.2.2.2.1
  have g6 : ss < 100 := h.2.2.2.2.2.1
  have g7 : us < 1000000 := h.2.2.2.2.2.2
  have b1 : y < 10 ^ 4 := by norm_num; omega
  have b2 : mo < 10 ^ 2 := by norm_num; omega
  have b3 : dd < 10 ^ 2 := by norm_num; omega
  have b4 : hh < 10 ^ 2 := by norm_num; omega
  have b5 : mi < 10 ^ 2 := by norm_num; omega
  have b6 : ss < 10 ^ 2 := by norm_num; omega
  have b7 : us < 10 ^ 6 := by norm_num; omega
  by_cases h0 : us = 0
  · subst h0
    have hm : microPart 0 = [] := rfl
    simp only [parseDT, isoChars, hm, List.append_nil, Option.some_bind,
      takeNum_pad, takeNum_pad_nil, expectCh_cons_self, b1, b2, b3, b4, b5, b6]
  · have hm : microPart us = '.' :: padNat 6 us := by simp [microPart, h0]
    simp only [parseDT, isoChars, hm, Option.some_bind, takeNum_pad,
      takeNum_pad_nil, expectCh_cons_self, b1, b2, b3, b4, b5, b6, b7,
      List.isEmpty_nil, if_true]

/-- Serializing one event and converting it back is the identity. -/
theorem convert_serialize (e : Event) (h : validDT e.time) :
    convertRaw (serializeEvent e) = some e := by
  simp [convertRaw, serializeEvent, fromisoformat, isoformat, parse_iso e.time h]

/-- The whole conversion loop undoes `save_events`. -/
theorem convertEvents_save (evs : List Event) (h : ∀ e ∈ evs, validDT e.time) :
    convertEvents (save_events evs) = some evs := by
  induction evs with
  | nil => rfl
  | cons e es ih =>
    have he := convert_serialize e (h e (by simp))
    have hes := ih fun x hx => h x (by simp [hx])
    simp only [save_events] at hes
    simp [save_events, convertEvents, he, hes]

/-- Accumulating loop = filter-then-map: the shape of the todo-parsing
loop (append one output per line passing the test, in order). -/
theorem foldl_filter_map {α β : Type} (p : α → Bool) (f : α → β)
    (ls : List α) (acc : List β) :
    ls.foldl (fun a l => if p l then a ++ [f l] else a) acc =
      acc ++ (ls.filter p).map f := by
  induction ls generalizing acc with
  | nil => simp
  | cons x xs ih =>
    by_cases h : p x <;>
      simp [List.foldl_cons, h, ih, List.filter_cons]

/-- A substring occurrence is a decomposition. -/
theorem hasSub_exists (pat cs : List Char) (h : hasSub pat cs = true) :
    ∃ l r, cs = l ++ (pat ++ r) := by
  induction cs with
  | nil =>
    refine ⟨[], [], ?_⟩
    simp only [hasSub, List.isEmpty_iff] at h
    simp [h]
  | cons x xs ih =>
    simp only [hasSub, Bool.or_eq_true] at h
    rcases h with h | h
    · rw [List.isPrefixOf_iff_prefix] at h
      obtain ⟨t, ht⟩ := h
      exact ⟨[], t, by simp [← ht]⟩
    · obtain ⟨l, r, hr⟩ := ih h
      exact ⟨x :: l, r, by simp [hr]⟩

/-- `split('|')` never returns an empty list of segments. -/
theorem splitOnChar_ne_nil (c : Char) (cs : List Char) :
    splitOnChar c cs ≠ [] := by
  induction cs with
  | nil => simp [splitOnChar]
  | cons x xs ih =>
    by_cases h : x = c
    · simp [splitOnChar, h]
    · rcases hs : splitOnChar c xs with _ | ⟨y, ys⟩ <;>
        simp [splitOnChar, h, hs]

/-- `split(c)` returns exactly one more segment than there are
occurrences of `c`. -/
theorem splitOnChar_length (c : Char) (cs : List Char) :
    (splitOnChar c cs).length = cs.count c + 1 := by
  induction cs with
  | nil => simp [splitOnChar]
  | cons x xs ih =>
    by_cases h : x = c
    · subst h
      simp [splitOnChar, List.count_cons_self, ih]
    · rcases hs : splitOnChar c xs with _ | ⟨y, ys⟩
      · exact absurd hs (splitOnChar_ne_nil c xs)
      · rw [hs] at ih
        simp only [splitOnChar, if_neg h, hs, List.length_cons,
          List.count_cons_of_ne (Ne.symm h)] at *
        omega

/-- If a string is split in two ways at a pipe character and neither
left part contains a pipe, the two splits coincide. -/
theorem pipe_split_unique (a : List Char) :
    ∀ b x y : List Char, a ++ '|' :: x = b ++ '|' :: y →
      '|' ∉ a → '|' ∉ b → a = b ∧ x = y := by
  induction a with
  | nil =>
    intro b x y h ha hb
    cases b with
    | nil =>
      refine ⟨rfl, ?_⟩
      simpa using h
    | cons c t =>
      exfalso
      simp only [List.nil_append, List.cons_append, List.cons.injEq] at h
      exact hb (by simp [← h.1])
  | cons c t ih =>
    intro b x y h ha hb
    cases b with
    | nil =>
      exfalso
      simp only [List.cons_append, List.nil_append, List.cons.injEq] at h
      exact ha (by simp [h.1])
    | cons c' t' =>
      simp only [List.cons_append, List.cons.injEq] at h
      obtain ⟨hc, ht⟩ := h
      have ha' : '|' ∉ t := fun hm => ha (by simp [hm])
      have hb' : '|' ∉ t' := fun hm => hb (by simp [hm])
      obtain ⟨h1, h2⟩ := ih t' x y ht ha' hb'
      exact ⟨by rw [hc, h1], h2⟩

/-- A line containing both `'| Risk:'` and `'| Action:'` contains at
least two pipe characters (the two markers cannot share their pipe). -/
theorem qualifies_two_pipes (line : List Char)
    (h : qualifiesLine line = true) : 2 ≤ line.count '|' := by
  simp only [qualifiesLine, Bool.and_eq_true] at h
  obtain ⟨h1, h2⟩ := h
  obtain ⟨l1, r1, e1⟩ := hasSub_exists _ _ h1
  obtain ⟨l2, r2, e2⟩ := hasSub_exists _ _ h2
  have m1 : "| Risk:".toList = '|' :: " Risk:".toList := rfl
  have m2 : "| Action:".toList = '|' :: " Action:".toList := rfl
  rw [m1, List.cons_append] at e1
  rw [m2, List.cons_append] at e2
  have z1R : (" Risk:".toList).count '|' = 0 := by decide
  have z1A : (" Action:".toList).count '|' = 0 := by decide
  have t1 : (" Risk:".toList ++ r1).count '|' = r1.count '|' := by
    rw [List.count_append, z1R, Nat.zero_add]
  have t2 : (" Action:".toList ++ r2).count '|' = r2.count '|' := by
    rw [List.count_append, z1A, Nat.zero_add]
  have f1 : line.count '|' = l1.count '|' + r1.count '|' + 1 := by
    rw [e1, List.count_append, List.count_cons_self, t1]
    omega
  have f2 : line.count '|' = l2.count '|' + r2.count '|' + 1 := by
    rw [e2, List.count_append, List.count_cons_self, t2]
    omega
  by_contra hc
  push_neg at hc
  have z1 : l1.count '|' = 0 := by omega
  have z2 : r1.count '|' = 0 := by omega
  have z3 : l2.count '|' = 0 := by omega
  have hu := pipe_split_unique l1 l2 (" Risk:".toList ++ r1)
    (" Action:".toList ++ r2) (e1.symm.trans e2)
    (List.count_eq_zero.mp z1) (List.count_eq_zero.mp z3)
  have : " Risk:".toList ++ r1 = " Action:".toList ++ r2 := hu.2
  have hR : " Risk:".toList = ' ' :: 'R' :: "isk:".toList := rfl
  have hA : " Action:".toList = ' ' :: 'A' :: "ction:".toList := rfl
  rw [hR, hA] at this
  simp at this

/-! ## Theorems for the claims -/

/-- C1: the orchestrator classification is a pure, total function of the
ordered boolean triple `[safetyImpact, complianceDeviation,
assetHealthRisk]`, evaluated first-match-wins: `answers[0]` true gives
Escalate with alert-type "Critical Safety"; otherwise `answers[1]` or
`answers[2]` true gives Schedule Task with "Asset Failure Risk" when
`answers[2]` is true (asset risk takes precedence over compliance) and
"Compliance Drift" otherwise; otherwise Auto-Resolve with "Rounding" —
covering all 8 combinations. -/
theorem claim_C1 :
    classify (true, true, true) = ("Escalate", "#ff4d4f", "Critical Safety") ∧
    classify (true, true, false) = ("Escalate", "#ff4d4f", "Critical Safety") ∧
    classify (true, false, true) = ("Escalate", "#ff4d4f", "Critical Safety") ∧
    classify (true, false, false) = ("Escalate", "#ff4d4f", "Critical Safety") ∧
    classify (false, true, true) = ("Schedule Task", "#faad14", "Asset Failure Risk") ∧
    classify (false, true, false) = ("Schedule Task", "#faad14", "Compliance Drift") ∧
    classify (false, false, true) = ("Schedule Task", "#faad14", "Asset Failure Risk") ∧
    classify (false, false, false) = ("Auto-Resolve", "#52c41a", "Rounding") ∧
    ∀ a : Bool × Bool × Bool,
      (classify a).1 = "Escalate" ∨ (classify a).1 = "Schedule Task" ∨
        (classify a).1 = "Auto-Resolve" := by
  decide

/-- C2: one orchestrator run on an event appends exactly one entry to
the front of the decision log, emits exactly one new alert, mutates the
event's status in place to the computed outcome and returns that
outcome; a second run on the same event adds a second log entry and a
second alert (the operation is not idempotent). -/
theorem claim_C2 (s : OrchState) (r : Nat) (a : Bool × Bool × Bool)
    (now now2 : DateTime) (i1 i2 : Nat) (hr : r < s.heap.length) :
    let s1 := (process_orchestrator_decision s r a now i1).1
    let s2 := (process_orchestrator_decision s1 r a now2 i2).1
    s1.orchestrator_log.length = s.orchestrator_log.length + 1 ∧
    s1.orchestrator_log.tail = s.orchestrator_log ∧
    s1.orchestrator_log.headD defaultEntry =
      { event := r, answers := a, outcome := (classify a).1,
        color := (classify a).2.1, timestamp := now } ∧
    s1.alerts.length = s.alerts.length + 1 ∧
    s1.alerts.tail = s.alerts ∧
    (s1.heap.getD r defaultEvent).status = (classify a).1 ∧
    (process_orchestrator_decision s r a now i1).2.1 = (classify a).1 ∧
    (process_orchestrator_decision s r a now i1).2.2 = (classify a).2.1 ∧
    s2.orchestrator_log.length = s.orchestrator_log.length + 2 ∧
    s2.alerts.length = s.alerts.length + 2 := by
  refine ⟨?_, ?_, ?_, ?_, ?_, ?_, ?_, ?_, ?_, ?_⟩ <;>
    simp [process_orchestrator_decision, add_alert_dynamic,
      getD_setEventStatus _ _ _ _ hr]

/-- Witness for C2 at a concrete state, event and answer triple. -/
theorem claim_C2_witness :
    c3Run.orchestrator_log.length = sampleOrchState.orchestrator_log.length + 1 ∧
    c3Run.orchestrator_log.tail = sampleOrchState.orchestrator_log ∧
    c3Run.orchestrator_log.headD defaultEntry =
      { event := 0, answers := (true, false, false),
        outcome := (classify (true, false, false)).1,
        color := (classify (true, false, false)).2.1, timestamp := t0 } ∧
    c3Run.alerts.length = sampleOrchState.alerts.length + 1 ∧
    c3Run.alerts.tail = sampleOrchState.alerts ∧
    (c3Run.heap.getD 0 defaultEvent).status = (classify (true, false, false)).1 ∧
    (process_orchestrator_decision sampleOrchState 0 (true, false, false) t0 7).2.1 =
      (classify (true, false, false)).1 ∧
    (process_orchestrator_decision sampleOrchState 0 (true, false, false) t0 7).2.2 =
      (classify (true, false, false)).2.1 ∧
    ((process_orchestrator_decision c3Run 0 (true, false, false) t1 8).1).orchestrator_log.length =
      sampleOrchState.orchestrator_log.length + 2 ∧
    ((process_orchestrator_decision c3Run 0 (true, false, false) t1 8).1).alerts.length =
      sampleOrchState.alerts.length + 2 :=
  claim_C2 sampleOrchState 0 (true, false, false) t0 t1 7 8 (by decide)

/-- C3 counterexample: the decision-log entry stores the event dict by
reference, not by value copy.  After the run with answers
`[True, False, False]` on an event whose status was "Pending", the
event reached through the already-appended entry has status "Escalate":
the in-place mutation changed the event recorded in the entry. -/
theorem claim_C3_cex :
    (c3Run.heap.getD ((c3Run.orchestrator_log.headD defaultEntry).event)
        defaultEvent).status = "Escalate" ∧
    (sampleOrchState.heap.getD 0 defaultEvent).status = "Pending" ∧
    ¬ c3Run.heap.getD ((c3Run.orchestrator_log.headD defaultEntry).event)
        defaultEvent = sampleOrchState.heap.getD 0 defaultEvent := by
  decide

/-- C3 (amended): every OrchestratorDecision entry stores a live
reference to the event dict it was computed for, not a value copy: the
orchestrator's subsequent in-place mutation of the store's event is
visible through the already-appended entry, whose recorded event ends
up equal to the store's event with status set to the outcome. -/
theorem claim_C3 (s : OrchState) (r : Nat) (a : Bool × Bool × Bool)
    (now : DateTime) (i : Nat) (hr : r < s.heap.length) :
    let s1 := (process_orchestrator_decision s r a now i).1
    (s1.orchestrator_log.headD defaultEntry).event = r ∧
    s1.heap.getD ((s1.orchestrator_log.headD defaultEntry).event) defaultEvent =
      { s.heap.getD r defaultEvent with status := (classify a).1 } := by
  refine ⟨?_, ?_⟩ <;>
    simp [process_orchestrator_decision, add_alert_dynamic,
      getD_setEventStatus _ _ _ _ hr]

/-- Witness for C3 (amended) at a concrete state and run. -/
theorem claim_C3_witness :
    (c3Run.orchestrator_log.headD defaultEntry).event = 0 ∧
    c3Run.heap.getD ((c3Run.orchestrator_log.headD defaultEntry).event) defaultEvent =
      { sampleOrchState.heap.getD 0 defaultEvent with
          status := (classify (true, false, false)).1 } :=
  claim_C3 sampleOrchState 0 (true, false, false) t0 7 (by decide)

/-- C4: whatever the three answers, the alert emitted by an orchestrator
run has urgency 14400 seconds and style class "alert-rounding" (while
its `type` field carries the derived alert-type): none of the four
derived alert-types is a key of `risk_to_alert` (whose keys are High,
Medium, Low, Training, Compliance), so every orchestrator-emitted alert
takes the "Low" fallback entry `("alert-rounding", 14400)` — in
particular a safety escalation gets the "Low"-tier urgency. -/
theorem claim_C4 (s : OrchState) (r : Nat) (a : Bool × Bool × Bool)
    (now : DateTime) (i : Nat) :
    ((process_orchestrator_decision s r a now i).1.alerts.headD defaultAlert).urgency
        = 14400 ∧
    ((process_orchestrator_decision s r a now i).1.alerts.headD defaultAlert).styleClass
        = "alert-rounding" ∧
    ((process_orchestrator_decision s r a now i).1.alerts.headD defaultAlert).type
        = (classify a).2.2 ∧
    (["Critical Safety", "Compliance Drift", "Asset Failure Risk", "Rounding"].all
      fun t => (List.lookup t risk_to_alert).isNone) = true ∧
    List.lookup "Low" risk_to_alert = some ("alert-rounding", 14400) ∧
    risk_to_alert.map Prod.fst = ["High", "Medium", "Low", "Training", "Compliance"] := by
  obtain ⟨a0, a1, a2⟩ := a
  cases a0 <;> cases a1 <;> cases a2 <;>
    simp [process_orchestrator_decision, add_alert_dynamic, classify,
      risk_to_alert, List.lookup]

/-- C7 counterexample: the id of an appended event is just the supplied
`time.time()` reading, with no uniqueness check — appending with a clock
value equal to an existing event's id (here, 5) leaves the store with
duplicate ids, so "the id-uniqueness invariant holds after every
append" is false as stated. -/
theorem claim_C7_cex :
    ¬ ((event_form_submit ⟨[sampleEvent], save_events [sampleEvent]⟩
        "Scheduled Cycle" "y" t1 5).events.map Event.id).Nodup := by
  decide

/-- C7 (amended): for every submission with non-empty details, the form
handler builds a new Event whose id is the supplied `time.time()`
reading, with the current timestamp and status Pending, inserts it at
index 0 of the event collection, and persists the full collection; id
uniqueness is preserved provided the clock reading differs from every
id already in the store (the code itself performs no uniqueness
check). -/
theorem claim_C7 (s : EventStoreState) (etype details : String)
    (now : DateTime) (clock : Nat) (hd : details ≠ "") :
    let s' := event_form_submit s etype details now clock
    s'.events =
      { id := clock, type := etype, details := details, time := now,
        status := "Pending" } :: s.events ∧
    s'.eventsFile = save_events s'.events ∧
    ((s.events.map Event.id).Nodup → clock ∉ s.events.map Event.id →
      (s'.events.map Event.id).Nodup) := by
  refine ⟨?_, ?_, ?_⟩ <;> simp [event_form_submit, hd, List.nodup_cons]
  exact fun h hm => ⟨hm, h⟩

/-- Witness for C7 (amended): appending to an empty store with clock 5
yields a store whose ids are (trivially) pairwise distinct. -/
theorem claim_C7_witness :
    ((event_form_submit ⟨[], []⟩ "Incident Flag" "Pump leak" t0 5).events.map
      Event.id).Nodup :=
  (claim_C7 ⟨[], []⟩ "Incident Flag" "Pump leak" t0 5 (by decide)).2.2
    (by decide) (by decide)

/-- C9: fail-open load — a missing, empty or truncated backing file
makes `load_events` return the empty collection without raising, as does
a parse failure while reconstructing a timestamp; `load_todos` follows
the same policy. -/
theorem claim_C9 :
    load_events FileState.missing = [] ∧
    load_events FileState.empty = [] ∧
    load_events FileState.truncated = [] ∧
    (∀ raws : List RawEvent, convertEvents raws = none →
      load_events (FileState.valid raws) = []) ∧
    load_todos FileState.missing = [] ∧
    load_todos FileState.empty = [] ∧
    load_todos FileState.truncated = [] := by
  refine ⟨rfl, rfl, rfl, ?_, rfl, rfl, rfl⟩
  intro raws h
  simp [load_events, readJson, h]

/-- Witness for C9: a stored event whose `time` field is not an ISO
string makes the whole load fail open to `[]`. -/
theorem claim_C9_witness : load_events (FileState.valid [badRawEvent]) = [] :=
  claim_C9.2.2.2.1 [badRawEvent] (by decide)

/-- C10: urgency display formatting uses integer floor division with
threshold-ordered branches — below 3600 seconds renders as minutes,
below 86400 as hours, otherwise as days; in particular 59→"0m",
60→"1m", 900→"15m", 3600→"1h", 86399→"23h", 86400→"1d". -/
theorem claim_C10 :
    (∀ a : Alert, a.urgency < 3600 →
      format_urgency a = toString (a.urgency / 60) ++ "m") ∧
    (∀ a : Alert, ¬ a.urgency < 3600 → a.urgency < 86400 →
      format_urgency a = toString (a.urgency / 3600) ++ "h") ∧
    (∀ a : Alert, ¬ a.urgency < 86400 →
      format_urgency a = toString (a.urgency / 86400) ++ "d") ∧
    format_urgency (urgAlert 59) = "0m" ∧
    format_urgency (urgAlert 60) = "1m" ∧
    format_urgency (urgAlert 900) = "15m" ∧
    format_urgency (urgAlert 3600) = "1h" ∧
    format_urgency (urgAlert 86399) = "23h" ∧
    format_urgency (urgAlert 86400) = "1d" := by
  refine ⟨?_, ?_, ?_, by decide, by decide, by decide, by decide, by decide, by decide⟩
  · intro a h; simp [format_urgency, h]
  · intro a h1 h2; simp [format_urgency, h1, h2]
  · intro a h
    have h1 : ¬ a.urgency < 3600 := by omega
    simp [format_urgency, h1, h]

/-- Witness for C10: the minutes branch at urgency 900. -/
theorem claim_C10_witness : format_urgency (urgAlert 900) = "15m" := by
  have h := claim_C10.1 (urgAlert 900) (by decide)
  rw [h]; decide

/-- C5: a line of the LLM response produces a Todo iff it contains both
literal substrings `'| Risk:'` and `'| Action:'` — the parse result is
exactly the qualifying lines, in response order, each split on `'|'`
with the `Event:`/`Risk:`/`Action:` labels removed and whitespace
trimmed and `done := false`; every qualifying line has at least three
`'|'`-segments, so the `parts[1]`/`parts[2]` accesses never raise; and
the spec's three-line example produces exactly the two expected Todos in
order (the malformed middle line is skipped). -/
theorem claim_C5 :
    (∀ resp : String, parseTodos resp =
      ((splitlines resp.toList).filter qualifiesLine).map mkTodo) ∧
    (∀ line : List Char, qualifiesLine line = true →
      3 ≤ (splitOnChar '|' line).length) ∧
    parseTodos specExample =
      [{ event := "Pump leak", risk := "High", action := "Inspect valve",
          done := false },
       { event := "Sensor drift", risk := "Low", action := "Recalibrate",
          done := false }] := by
  refine ⟨?_, ?_, by decide⟩
  · intro resp
    simpa using foldl_filter_map qualifiesLine mkTodo (splitlines resp.toList) []
  · intro line h
    rw [splitOnChar_length]
    have := qualifies_two_pipes line h
    omega

/-- Witness for C5: a concrete qualifying line has at least three
pipe-separated segments. -/
theorem claim_C5_witness :
    3 ≤ (splitOnChar '|' ("Event: a | Risk: b | Action: c".toList)).length :=
  claim_C5.2.1 _ (by decide)

/-- C6: after parsing an LLM response, if at least one line qualified
then the Todo collection is wholesale-replaced by the parsed set and
that set is persisted; if no line qualified, both the in-memory
collection and the persisted file are left completely unchanged. -/
theorem claim_C6 (s : TodoState) (resp : String) :
    ((∃ line ∈ splitlines resp.toList, qualifiesLine line = true) →
      dashboardTodoUpdate s resp =
        { todos := parseTodos resp, todosFile := parseTodos resp }) ∧
    ((∀ line ∈ splitlines resp.toList, qualifiesLine line = false) →
      dashboardTodoUpdate s resp = s) := by
  have hp : parseTodos resp =
      ((splitlines resp.toList).filter qualifiesLine).map mkTodo := by
    simpa using foldl_filter_map qualifiesLine mkTodo (splitlines resp.toList) []
  constructor
  · rintro ⟨line, hmem, hq⟩
    have hne : parseTodos resp ≠ [] := by
      rw [hp]
      simp only [ne_eq, List.map_eq_nil_iff, List.filter_eq_nil_iff]
      push_neg
      exact ⟨line, hmem, by simp [hq]⟩
    simp [dashboardTodoUpdate, hne]
  · intro hall
    have hnil : parseTodos resp = [] := by
      rw [hp]
      simp only [List.map_eq_nil_iff, List.filter_eq_nil_iff]
      intro a ha
      simp [hall a ha]
    simp [dashboardTodoUpdate, hnil]

/-- Witness for C6: on the spec's example response, an existing todo
collection is wholesale-replaced by the parsed set. -/
theorem claim_C6_witness :
    dashboardTodoUpdate
        ⟨[{ event := "old", risk := "Low", action := "none", done := true }],
         [{ event := "old", risk := "Low", action := "none", done := true }]⟩
        specExample =
      { todos := parseTodos specExample, todosFile := parseTodos specExample } :=
  (claim_C6 _ specExample).1 (by decide)

/-- C8: round-trip — saving the event collection to the events file and
reloading it yields a collection equal by value to the original,
including reconstruction of each event's timestamp from its serialized
ISO-8601 form, for every collection of events with real datetime field
values. -/
theorem claim_C8 (evs : List Event) (h : ∀ e ∈ evs, validDT e.time) :
    load_events (FileState.valid (save_events evs)) = evs := by
  simp [load_events, readJson, convertEvents_save evs h]

/-- Witness for C8 on a two-event store, with and without fractional
seconds in the timestamps. -/
theorem claim_C8_witness :
    load_events (FileState.valid (save_events [sampleEvent, sampleEvent2])) =
      [sampleEvent, sampleEvent2] :=
  claim_C8 [sampleEvent, sampleEvent2] (by decide)

end ChemECare
